import Mathlib

/-!
Formal model of the conversation service in backend/app.py.

The service exposes two HTTP endpoints over a SQLite table `conversations`:
POST /generate (parse JSON body, trim the prompt, call the language-model
oracle, insert one row, return the reply) and GET /history (parse limit and
offset query parameters, select rows ordered by created_at descending then
id descending, with LIMIT/OFFSET paging).  The model below embeds the
handlers as pure functions over an explicit store state; the language model
(lines 90-110 of app.py) is an opaque oracle parameter of type
String -> Except String String.  Timestamps are modelled as naturals
supplied at insert time (SQLite CURRENT_TIMESTAMP).
-/

/-- JSON values, modelling the parsed request and response bodies the Flask
handlers exchange.  Objects are association lists of key/value pairs. -/
inductive Json where
  | null : Json
  | bool (b : Bool) : Json
  | num (n : Int) : Json
  | str (s : String) : Json
  | arr (xs : List Json) : Json
  | obj (fields : List (String × Json)) : Json

/-- One row of the `conversations` table (app.py lines 48-55): integer
primary key, prompt text, response text, and an insert-time timestamp. -/
structure ConversationRecord where
  id : Nat
  prompt : String
  response : String
  created_at : Nat
deriving DecidableEq, Repr

/-- State of the SQLite database file: whether the `conversations` table
exists, the next AUTOINCREMENT id, and the rows in insertion order. -/
structure DBState where
  tableExists : Bool
  nextId : Nat
  rows : List ConversationRecord
deriving DecidableEq, Repr

/-- Model of the INSERT at app.py lines 114-118: SQLite assigns the next
AUTOINCREMENT id and the current timestamp, and appends the row. -/
def appendRow (db : DBState) (prompt response : String) (now : Nat) : DBState :=
  { db with
    nextId := db.nextId + 1
    rows := db.rows ++ [⟨db.nextId, prompt, response, now⟩] }

/-- Model of init_db (app.py lines 38-57): CREATE TABLE IF NOT EXISTS
`conversations`.  The Boolean argument models whether the database file is
writable; sqlite3.connect/execute raise when it is not. -/
def init_db (writable : Bool) (s : DBState) : Except String DBState :=
  if writable then
    Except.ok (if s.tableExists then s else { s with tableExists := true })
  else
    Except.error "unable to open database file"

/-- Model of Python dict.get(key, default) as used at app.py line 88. -/
def pyGet (fields : List (String × Json)) (key : String) (dflt : Json) : Json :=
  match fields.find? (fun p => p.fst == key) with
  | some p => p.snd
  | none => dflt

/-- Model of Python str.strip() (app.py lines 88 and 110): remove leading
and trailing whitespace characters. -/
def pyStrip (s : String) : String :=
  String.mk (((s.toList.dropWhile Char.isWhitespace).reverse.dropWhile
    Char.isWhitespace).reverse)

/-- Digits of a decimal numeral; none when the list is empty or contains a
non-digit character. -/
def decDigits (cs : List Char) : Option Nat :=
  if cs = [] then none
  else
    cs.foldl
      (fun acc c => acc.bind fun n =>
        if c.isDigit then some (10 * n + (c.toNat - 48)) else none)
      (some 0)

/-- Model of Python int(string) as used at app.py lines 127-128: optional
surrounding whitespace, an optional sign, then decimal digits; any other
shape raises ValueError, modelled as none. -/
def pyInt (s : String) : Option Int :=
  match ((s.toList.dropWhile Char.isWhitespace).reverse.dropWhile
      Char.isWhitespace).reverse with
  | [] => none
  | '-' :: rest => (decDigits rest).map (fun n => -(n : Int))
  | '+' :: rest => (decDigits rest).map (fun n => (n : Int))
  | cs => (decDigits cs).map (fun n => (n : Int))

/-- HTTP responses the two handlers can produce: 200 with a JSON body,
400 with a JSON error body, or 500 from an uncaught Python exception. -/
inductive Resp where
  | ok200 (body : Json)
  | err400 (body : Json)
  | err500 (msg : String)

/-- Predicate picking out successful (HTTP 200) responses. -/
def isOk200 : Resp → Bool
  | .ok200 _ => true
  | _ => false

/-- Outcome of one POST /generate call: the HTTP response, the database
state after the call, and the list of prompts passed to the oracle. -/
structure GenOut where
  resp : Resp
  db : DBState
  calls : List String

/-- Model of the generate handler (app.py lines 79-121).  The body argument
is the result of request.get_json(force=True): an error means malformed
JSON, which Flask turns into a 400 BadRequest.  On a JSON object, the
handler reads data.get("prompt", "") and calls .strip() on it, which raises
AttributeError (HTTP 500) unless the value is a string.  The oracle
parameter stands for the chat-template/tokenize/generate/decode pipeline of
lines 90-110; an oracle error is an uncaught exception (HTTP 500).  On
oracle success the handler inserts one row and returns the reply. -/
def generate (oracle : String → Except String String) (body : Except String Json)
    (now : Nat) (db : DBState) : GenOut :=
  match body with
  | .error msg => { resp := .err400 (Json.str msg), db := db, calls := [] }
  | .ok data =>
    match data with
    | .obj fields =>
      match pyGet fields "prompt" (Json.str "") with
      | .str raw =>
        let prompt := pyStrip raw
        match oracle prompt with
        | .error msg => { resp := .err500 msg, db := db, calls := [prompt] }
        | .ok reply =>
          { resp := .ok200 (Json.obj [("reply", Json.str reply)])
            db := appendRow db prompt reply now
            calls := [prompt] }
      | _ => { resp := .err500 "AttributeError: strip", db := db, calls := [] }
    | _ => { resp := .err500 "AttributeError: get", db := db, calls := [] }

/-- Ordering used by the history query (app.py line 137): ORDER BY
datetime(created_at) DESC, id DESC.  histOrder a b holds when a sorts at or
before b. -/
def histOrder (a b : ConversationRecord) : Prop :=
  b.created_at < a.created_at ∨ (b.created_at = a.created_at ∧ b.id ≤ a.id)

instance : DecidableRel histOrder := fun a b =>
  inferInstanceAs (Decidable (b.created_at < a.created_at ∨
    (b.created_at = a.created_at ∧ b.id ≤ a.id)))

instance : IsTotal ConversationRecord histOrder :=
  ⟨fun a b => by unfold histOrder; omega⟩

instance : IsTrans ConversationRecord histOrder :=
  ⟨fun a b c hab hbc => by unfold histOrder at hab hbc ⊢; omega⟩

/-- SQLite LIMIT/OFFSET semantics (app.py line 138): a negative OFFSET
skips nothing, and a negative LIMIT means no limit. -/
def sqlitePage (rows : List ConversationRecord) (limit offset : Int) :
    List ConversationRecord :=
  let dropped := rows.drop offset.toNat
  if limit < 0 then dropped else dropped.take limit.toNat

/-- Model of the SELECT at app.py lines 133-141: rows ordered by
created_at descending then id descending, then paged by LIMIT/OFFSET. -/
def list_recent (db : DBState) (limit offset : Int) : List ConversationRecord :=
  sqlitePage (List.insertionSort histOrder db.rows) limit offset

/-- Serialization of one row at app.py lines 143-150. -/
def recordJson (r : ConversationRecord) : Json :=
  Json.obj [("id", Json.num (Int.ofNat r.id)), ("prompt", Json.str r.prompt),
    ("response", Json.str r.response),
    ("created_at", Json.num (Int.ofNat r.created_at))]

/-- Result of one query-parameter read at app.py lines 127-128:
int(request.args.get(key, default)).  A missing parameter yields the
integer default; a present one is parsed with Python int(). -/
def parseParam (args : List (String × String)) (key : String) (dflt : Int) :
    Option Int :=
  match args.find? (fun p => p.fst == key) with
  | some p => pyInt p.snd
  | none => some dflt

/-- Outcome of one GET /history call: the HTTP response, the database state
after the call, and whether the handler reached the store at all. -/
structure HistOut where
  resp : Resp
  db : DBState
  accessed : Bool

/-- Model of the history handler (app.py lines 124-150): parse limit
(default 5) and offset (default 0); on parse failure return 400 with
message "limit/offset must be integers" without touching the store; else
run the SELECT and serialize the rows in order. -/
def history (args : List (String × String)) (db : DBState) : HistOut :=
  match parseParam args "limit" 5, parseParam args "offset" 0 with
  | some limit, some offset =>
    { resp := .ok200 (Json.arr ((list_recent db limit offset).map recordJson))
      db := db
      accessed := true }
  | _, _ =>
    { resp := .err400 (Json.obj [("error",
        Json.str "limit/offset must be integers")])
      db := db
      accessed := false }

/-- Store well-formedness maintained by the SQLite table: ids strictly
increase in insertion order (AUTOINCREMENT) and timestamps are
non-decreasing in insertion order (CURRENT_TIMESTAMP under a monotone
clock, the invariant stated in the data model). -/
def WFStore (db : DBState) : Prop :=
  db.rows.Pairwise (fun a b => a.id < b.id ∧ a.created_at ≤ b.created_at)

instance (db : DBState) : Decidable (WFStore db) := by
  unfold WFStore; infer_instance

/-- Occurrence order in a list: a occurs at a strictly earlier position
than b. -/
def before (l : List ConversationRecord) (a b : ConversationRecord) : Prop :=
  ∃ i : Fin l.length, ∃ j : Fin l.length,
    i.val < j.val ∧ l.get i = a ∧ l.get j = b

instance (l : List ConversationRecord) (a b : ConversationRecord) :
    Decidable (before l a b) := by
  unfold before; infer_instance

/-- Per-request state for the connection lifecycle of app.py lines 17-36:
the flask.g slot caching the request connection, the id the next
sqlite3.connect call would return, and logs of opened and closed
connection ids. -/
structure ReqState where
  g : Option Nat
  nextConn : Nat
  openedLog : List Nat
  closedLog : List Nat
deriving DecidableEq, Repr

/-- Model of get_db (app.py lines 17-26): reuse the connection cached on g,
or open a new one on first use and cache it. -/
def get_db (s : ReqState) : Nat × ReqState :=
  match s.g with
  | some c => (c, s)
  | none =>
    (s.nextConn,
      { s with
        g := some s.nextConn
        nextConn := s.nextConn + 1
        openedLog := s.openedLog ++ [s.nextConn] })

/-- Model of close_db (app.py lines 28-36): pop the cached connection from
g and close it if one was opened. -/
def close_db (s : ReqState) : ReqState :=
  match s.g with
  | some c => { s with g := none, closedLog := s.closedLog ++ [c] }
  | none => s

/-- Handler body performing n store accesses, each through get_db; returns
the connection id used by each access. -/
def runAccesses : Nat → ReqState → List Nat × ReqState
  | 0, s => ([], s)
  | n + 1, s =>
    let step := get_db s
    let rest := runAccesses n step.2
    (step.1 :: rest.1, rest.2)

/-- One full request: the handler's store accesses followed unconditionally
by the teardown_appcontext hook close_db, which Flask runs on every exit
path, success or exception. -/
def runRequest (n : Nat) (s : ReqState) : List Nat × ReqState :=
  let body := runAccesses n s
  (body.1, close_db body.2)

/-- Example oracle for concrete instantiations: echoes its prompt. -/
def oracleEcho (p : String) : Except String String :=
  Except.ok ("echo: " ++ p)

/-- Example oracle for concrete instantiations: always raises. -/
def oracleFail (_p : String) : Except String String :=
  Except.error "generation failed"

/-- Example database with two rows, used to instantiate theorems. -/
def dbEx : DBState :=
  { tableExists := true
    nextId := 3
    rows := [⟨1, "a", "ra", 10⟩, ⟨2, "b", "rb", 11⟩] }

/-- Example fresh per-request state. -/
def reqState0 : ReqState :=
  { g := none, nextConn := 0, openedLog := [], closedLog := [] }

/-- Helper: generate only ever extends the row list, and on every
non-200 outcome it leaves the database untouched. -/
lemma generate_db_extends (oracle : String → Except String String)
    (body : Except String Json) (now : Nat) (db : DBState) :
    (∃ ext : List ConversationRecord,
        (generate oracle body now db).db.rows = db.rows ++ ext)
    ∧ (isOk200 (generate oracle body now db).resp = false →
        (generate oracle body now db).db = db) := by
  cases body with
  | error msg => exact ⟨⟨[], by simp [generate]⟩, fun _ => by simp [generate]⟩
  | ok data =>
    cases data with
    | null => exact ⟨⟨[], by simp [generate]⟩, fun _ => by simp [generate]⟩
    | bool b => exact ⟨⟨[], by simp [generate]⟩, fun _ => by simp [generate]⟩
    | num n => exact ⟨⟨[], by simp [generate]⟩, fun _ => by simp [generate]⟩
    | str s => exact ⟨⟨[], by simp [generate]⟩, fun _ => by simp [generate]⟩
    | arr xs => exact ⟨⟨[], by simp [generate]⟩, fun _ => by simp [generate]⟩
    | obj fields =>
      cases hp : pyGet fields "prompt" (Json.str "") with
      | str raw =>
        cases ho : oracle (pyStrip raw) with
        | error msg =>
          exact ⟨⟨[], by simp [generate, hp, ho]⟩,
            fun _ => by simp [generate, hp, ho]⟩
        | ok reply =>
          refine ⟨⟨[⟨db.nextId, pyStrip raw, reply, now⟩],
            by simp [generate, hp, ho, appendRow]⟩, ?_⟩
          intro h
          simp [generate, hp, ho, isOk200] at h
      | null =>
        exact ⟨⟨[], by simp [generate, hp]⟩, fun _ => by simp [generate, hp]⟩
      | bool b =>
        exact ⟨⟨[], by simp [generate, hp]⟩, fun _ => by simp [generate, hp]⟩
      | num n =>
        exact ⟨⟨[], by simp [generate, hp]⟩, fun _ => by simp [generate, hp]⟩
      | arr xs =>
        exact ⟨⟨[], by simp [generate, hp]⟩, fun _ => by simp [generate, hp]⟩
      | obj fs =>
        exact ⟨⟨[], by simp [generate, hp]⟩, fun _ => by simp [generate, hp]⟩

/-- C1: for every valid prompt P, a successful POST /generate call appends
exactly one record to the store, with prompt field pyStrip P and response
field equal to the oracle's text for that prompt, and the call returns that
response text. -/
theorem generate_appends_one_record (oracle : String → Except String String)
    (body : Except String Json) (now : Nat) (db : DBState)
    (fields : List (String × Json)) (P reply : String)
    (hb : body = Except.ok (Json.obj fields))
    (hp : pyGet fields "prompt" (Json.str "") = Json.str P)
    (ho : oracle (pyStrip P) = Except.ok reply) :
    (generate oracle body now db).resp
        = Resp.ok200 (Json.obj [("reply", Json.str reply)])
    ∧ (generate oracle body now db).db.rows
        = db.rows ++ [⟨db.nextId, pyStrip P, reply, now⟩]
    ∧ (generate oracle body now db).calls = [pyStrip P] := by
  subst hb
  simp [generate, hp, ho, appendRow]

/-- Witness for C1 at a concrete oracle, body and store. -/
theorem generate_appends_one_record_witness :
    (generate oracleEcho (Except.ok (Json.obj [("prompt", Json.str " hi ")]))
        7 dbEx).resp
      = Resp.ok200 (Json.obj [("reply", Json.str "echo: hi")])
    ∧ (generate oracleEcho (Except.ok (Json.obj [("prompt", Json.str " hi ")]))
        7 dbEx).db.rows
      = dbEx.rows ++ [⟨dbEx.nextId, pyStrip " hi ", "echo: hi", 7⟩]
    ∧ (generate oracleEcho (Except.ok (Json.obj [("prompt", Json.str " hi ")]))
        7 dbEx).calls = [pyStrip " hi "] :=
  generate_appends_one_record oracleEcho _ 7 dbEx
    [("prompt", Json.str " hi ")] " hi " "echo: hi" rfl rfl rfl

/-- C2: every failure path of POST /generate performs zero store
insertions; in particular a malformed body yields an error response with
the store untouched, and an oracle failure on a parsed prompt yields an
error response with the store untouched. -/
theorem generate_failure_no_insert (oracle : String → Except String String)
    (body : Except String Json) (now : Nat) (db : DBState) :
    (isOk200 (generate oracle body now db).resp = false →
        (generate oracle body now db).db = db)
    ∧ (∀ msg, body = Except.error msg →
        isOk200 (generate oracle body now db).resp = false)
    ∧ (∀ fields P msg, body = Except.ok (Json.obj fields) →
        pyGet fields "prompt" (Json.str "") = Json.str P →
        oracle (pyStrip P) = Except.error msg →
        isOk200 (generate oracle body now db).resp = false) := by
  refine ⟨(generate_db_extends oracle body now db).2, ?_, ?_⟩
  · intro msg hb
    subst hb
    simp [generate, isOk200]
  · intro fields P msg hb hp ho
    subst hb
    simp [generate, hp, ho, isOk200]

/-- Witness for C2: a failing oracle leaves the store unchanged and
returns a non-200 response, and so does a malformed body. -/
theorem generate_failure_no_insert_witness :
    isOk200 (generate oracleFail
        (Except.ok (Json.obj [("prompt", Json.str "hi")])) 7 dbEx).resp = false
    ∧ (generate oracleFail
        (Except.ok (Json.obj [("prompt", Json.str "hi")])) 7 dbEx).db = dbEx
    ∧ isOk200 (generate oracleEcho (Except.error "bad json") 7 dbEx).resp
        = false := by
  have h1 := (generate_failure_no_insert oracleFail
    (Except.ok (Json.obj [("prompt", Json.str "hi")])) 7 dbEx).2.2
    [("prompt", Json.str "hi")] "hi" "generation failed" rfl rfl rfl
  have h2 := (generate_failure_no_insert oracleFail
    (Except.ok (Json.obj [("prompt", Json.str "hi")])) 7 dbEx).1 h1
  have h3 := (generate_failure_no_insert oracleEcho
    (Except.error "bad json") 7 dbEx).2.1 "bad json" rfl
  exact ⟨h1, h2, h3⟩

/-- C10: a JSON body whose prompt field is present but not a string makes
the handler raise before the oracle is consulted: the call returns a 500
error, invokes the oracle zero times, and appends zero records. -/
theorem generate_nonstring_prompt (oracle : String → Except String String)
    (body : Except String Json) (now : Nat) (db : DBState)
    (fields : List (String × Json)) (v : Json)
    (hb : body = Except.ok (Json.obj fields))
    (hv : pyGet fields "prompt" (Json.str "") = v)
    (hns : ∀ t, v ≠ Json.str t) :
    (∃ m, (generate oracle body now db).resp = Resp.err500 m)
    ∧ (generate oracle body now db).db = db
    ∧ (generate oracle body now db).calls = [] := by
  subst hb
  cases hq : pyGet fields "prompt" (Json.str "") with
  | str t => exact absurd (hv.symm.trans hq) (hns t)
  | null =>
    exact ⟨⟨"AttributeError: strip", by simp [generate, hq]⟩,
      by simp [generate, hq], by simp [generate, hq]⟩
  | bool b =>
    exact ⟨⟨"AttributeError: strip", by simp [generate, hq]⟩,
      by simp [generate, hq], by simp [generate, hq]⟩
  | num n =>
    exact ⟨⟨"AttributeError: strip", by simp [generate, hq]⟩,
      by simp [generate, hq], by simp [generate, hq]⟩
  | arr xs =>
    exact ⟨⟨"AttributeError: strip", by simp [generate, hq]⟩,
      by simp [generate, hq], by simp [generate, hq]⟩
  | obj fs =>
    exact ⟨⟨"AttributeError: strip", by simp [generate, hq]⟩,
      by simp [generate, hq], by simp [generate, hq]⟩

/-- Witness for C10 with a numeric prompt field. -/
theorem generate_nonstring_prompt_witness :
    (∃ m, (generate oracleEcho
        (Except.ok (Json.obj [("prompt", Json.num 3)])) 7 dbEx).resp
      = Resp.err500 m)
    ∧ (generate oracleEcho
        (Except.ok (Json.obj [("prompt", Json.num 3)])) 7 dbEx).db = dbEx
    ∧ (generate oracleEcho
        (Except.ok (Json.obj [("prompt", Json.num 3)])) 7 dbEx).calls = [] :=
  generate_nonstring_prompt oracleEcho _ 7 dbEx [("prompt", Json.num 3)]
    (Json.num 3) rfl rfl (fun _ h => Json.noConfusion h)

/-- Helper: the history page is a sublist of the fully sorted row list. -/
lemma list_recent_sublist (db : DBState) (limit offset : Int) :
    (list_recent db limit offset).Sublist
      (List.insertionSort histOrder db.rows) := by
  unfold list_recent sqlitePage
  by_cases h : limit < 0
  · simpa [h] using List.drop_sublist offset.toNat _
  · simp only [h, if_false]
    exact (List.take_sublist _ _).trans (List.drop_sublist _ _)

/-- C3: the sequence returned by GET /history is sorted by created_at
descending with ties broken by id descending, and for records A inserted
before B in a well-formed store, A never appears before B in the output. -/
theorem history_order_law (db : DBState) (limit offset : Int)
    (A B : ConversationRecord) (hwf : WFStore db)
    (hins : before db.rows A B) :
    List.Pairwise histOrder (list_recent db limit offset)
    ∧ ¬ before (list_recent db limit offset) A B := by
  have hsorted : List.Pairwise histOrder (list_recent db limit offset) :=
    List.Pairwise.sublist (list_recent_sublist db limit offset)
      (List.sorted_insertionSort histOrder db.rows)
  refine ⟨hsorted, ?_⟩
  rintro ⟨i, j, hij, hia, hjb⟩
  have h1 : histOrder A B := by
    have := List.pairwise_iff_get.mp hsorted i j (Fin.lt_def.mpr hij)
    rwa [hia, hjb] at this
  obtain ⟨k, l, hkl, hka, hlb⟩ := hins
  have h2 : A.id < B.id ∧ A.created_at ≤ B.created_at := by
    have := List.pairwise_iff_get.mp hwf k l (Fin.lt_def.mpr hkl)
    rwa [hka, hlb] at this
  unfold histOrder at h1
  omega

/-- Witness for C3 on a concrete two-row store. -/
theorem history_order_law_witness :
    List.Pairwise histOrder (list_recent dbEx 5 0)
    ∧ ¬ before (list_recent dbEx 5 0) ⟨1, "a", "ra", 10⟩ ⟨2, "b", "rb", 11⟩ :=
  history_order_law dbEx 5 0 ⟨1, "a", "ra", 10⟩ ⟨2, "b", "rb", 11⟩
    (by decide) (by decide)

/-- C4 counterexample: the claim says a negative limit is rejected by the
handler before any query reaches the store; in the code a negative limit
parses fine, the handler returns 200, and the store query runs. -/
theorem history_negative_limit_counterexample :
    pyInt "-1" = some (-1) ∧ ((-1 : Int) < 0)
    ∧ (history [("limit", "-1")] dbEx).accessed = true
    ∧ isOk200 (history [("limit", "-1")] dbEx).resp = true := by
  refine ⟨by decide, by decide, ?_, ?_⟩ <;> rfl

/-- C4 amended: limit and offset must parse as integers, and a value that
does not parse is rejected before the store is queried; a negative integer
is accepted, the query runs against the store, and SQLite semantics apply
(negative LIMIT means unlimited, negative OFFSET skips nothing). -/
theorem history_integer_params_reach_store (args : List (String × String))
    (db : DBState) (limit offset : Int)
    (hl : parseParam args "limit" 5 = some limit)
    (ho : parseParam args "offset" 0 = some offset) :
    (history args db).accessed = true
    ∧ (history args db).resp
        = Resp.ok200 (Json.arr ((list_recent db limit offset).map recordJson)) := by
  unfold history
  rw [hl, ho]
  exact ⟨rfl, rfl⟩

/-- Witness for the amended C4 at a negative limit. -/
theorem history_integer_params_reach_store_witness :
    (history [("limit", "-1")] dbEx).accessed = true
    ∧ (history [("limit", "-1")] dbEx).resp
        = Resp.ok200 (Json.arr ((list_recent dbEx (-1) 0).map recordJson)) :=
  history_integer_params_reach_store [("limit", "-1")] dbEx (-1) 0
    (by decide) (by decide)

/-- C5: when limit or offset does not parse as an integer, the handler
returns 400 with message "limit/offset must be integers" and performs no
store access of any kind. -/
theorem history_parse_error (args : List (String × String)) (db : DBState)
    (h : parseParam args "limit" 5 = none ∨ parseParam args "offset" 0 = none) :
    (history args db).resp
        = Resp.err400 (Json.obj [("error",
            Json.str "limit/offset must be integers")])
    ∧ (history args db).accessed = false
    ∧ (history args db).db = db := by
  unfold history
  rcases h with h | h
  · rw [h]
    cases parseParam args "offset" 0 <;> exact ⟨rfl, rfl, rfl⟩
  · rw [h]
    cases parseParam args "limit" 5 <;> exact ⟨rfl, rfl, rfl⟩

/-- Witness for C5 at a non-numeric limit parameter. -/
theorem history_parse_error_witness :
    (history [("limit", "abc")] dbEx).resp
        = Resp.err400 (Json.obj [("error",
            Json.str "limit/offset must be integers")])
    ∧ (history [("limit", "abc")] dbEx).accessed = false
    ∧ (history [("limit", "abc")] dbEx).db = dbEx :=
  history_parse_error [("limit", "abc")] dbEx (Or.inl (by decide))

/-- C6: a JSON body without a prompt field is handled exactly like one
whose prompt is the empty string (no error), and for a string prompt the
whitespace-trimmed text is what reaches the oracle and, on success, the
store. -/
theorem generate_missing_prompt_and_trim (oracle : String → Except String String)
    (now : Nat) (db : DBState) :
    (∀ fields, fields.find? (fun p => p.fst == "prompt") = none →
        generate oracle (Except.ok (Json.obj fields)) now db
          = generate oracle (Except.ok (Json.obj [("prompt", Json.str "")])) now db)
    ∧ (∀ fields P, pyGet fields "prompt" (Json.str "") = Json.str P →
        (generate oracle (Except.ok (Json.obj fields)) now db).calls = [pyStrip P]
        ∧ ∀ reply, oracle (pyStrip P) = Except.ok reply →
            (generate oracle (Except.ok (Json.obj fields)) now db).db.rows
              = db.rows ++ [⟨db.nextId, pyStrip P, reply, now⟩]) := by
  constructor
  · intro fields hf
    simp [generate, pyGet, hf]
  · intro fields P hp
    constructor
    · cases ho : oracle (pyStrip P) with
      | error m => simp [generate, hp, ho]
      | ok r => simp [generate, hp, ho]
    · intro reply ho
      simp [generate, hp, ho, appendRow]

/-- Witness for C6 with a prompt-less body and a whitespace-padded prompt. -/
theorem generate_missing_prompt_and_trim_witness :
    generate oracleEcho (Except.ok (Json.obj [("x", Json.num 1)])) 7 dbEx
      = generate oracleEcho (Except.ok (Json.obj [("prompt", Json.str "")])) 7 dbEx
    ∧ (generate oracleEcho
        (Except.ok (Json.obj [("prompt", Json.str "  hi ")])) 7 dbEx).calls
      = [pyStrip "  hi "] :=
  ⟨(generate_missing_prompt_and_trim oracleEcho 7 dbEx).1
      [("x", Json.num 1)] rfl,
   ((generate_missing_prompt_and_trim oracleEcho 7 dbEx).2
      [("prompt", Json.str "  hi ")] "  hi " rfl).1⟩

/-- C7: on a writable store init_db succeeds, creates the table if absent,
alters no existing rows and no id counter, is idempotent, and keeps
succeeding without touching data when interleaved with inserts. -/
theorem init_db_idempotent (w : Bool) (s : DBState) (hw : w = true) :
    ∃ s', init_db w s = Except.ok s'
      ∧ s'.rows = s.rows ∧ s'.nextId = s.nextId ∧ s'.tableExists = true
      ∧ init_db w s' = Except.ok s'
      ∧ ∀ p r n, init_db w (appendRow s' p r n)
          = Except.ok (appendRow s' p r n) := by
  subst hw
  by_cases h : s.tableExists
  · refine ⟨s, by simp [init_db, h], rfl, rfl, h, by simp [init_db, h], ?_⟩
    intro p r n
    simp [init_db, appendRow, h]
  · refine ⟨{ s with tableExists := true }, by simp [init_db, h], rfl, rfl,
      rfl, by simp [init_db], ?_⟩
    intro p r n
    simp [init_db, appendRow]

/-- Witness for C7 on the example store. -/
theorem init_db_idempotent_witness :
    ∃ s', init_db true dbEx = Except.ok s'
      ∧ s'.rows = dbEx.rows ∧ s'.nextId = dbEx.nextId ∧ s'.tableExists = true
      ∧ init_db true s' = Except.ok s'
      ∧ ∀ p r n, init_db true (appendRow s' p r n)
          = Except.ok (appendRow s' p r n) :=
  init_db_idempotent true dbEx rfl

/-- Helper: once a connection is cached on g, every further access reuses
it and the request state does not change. -/
lemma runAccesses_cached (n : Nat) (c : Nat) (s : ReqState)
    (h : s.g = some c) :
    runAccesses n s = (List.replicate n c, s) := by
  induction n with
  | zero => rfl
  | succ m ih =>
    simp [runAccesses, get_db, h, ih, List.replicate_succ]

/-- C8: a request with at least one store access opens exactly one
connection, lazily on the first access; all accesses use it, and at
request end it is closed and the cache is empty again.  A request with no
accesses opens and closes nothing. -/
theorem request_connection_lifecycle (n : Nat) (s : ReqState)
    (h : s.g = none) :
    (runRequest n s).2.openedLog
        = s.openedLog ++ (if n = 0 then [] else [s.nextConn])
    ∧ (runRequest n s).1 = List.replicate n s.nextConn
    ∧ (runRequest n s).2.closedLog
        = s.closedLog ++ (if n = 0 then [] else [s.nextConn])
    ∧ (runRequest n s).2.g = none := by
  cases n with
  | zero => simp [runRequest, runAccesses, close_db, h]
  | succ m =>
    have hacc : runAccesses (m + 1) s
        = (s.nextConn :: List.replicate m s.nextConn,
           { s with
             g := some s.nextConn
             nextConn := s.nextConn + 1
             openedLog := s.openedLog ++ [s.nextConn] }) := by
      have hrest := runAccesses_cached m s.nextConn
        { s with
          g := some s.nextConn
          nextConn := s.nextConn + 1
          openedLog := s.openedLog ++ [s.nextConn] } rfl
      simp [runAccesses, get_db, h, hrest]
    refine ⟨?_, ?_, ?_, ?_⟩ <;>
      simp [runRequest, hacc, close_db, List.replicate_succ]

/-- Witness for C8: a two-access request from a fresh state. -/
theorem request_connection_lifecycle_witness :
    (runRequest 2 reqState0).2.openedLog
        = reqState0.openedLog ++ (if 2 = 0 then [] else [reqState0.nextConn])
    ∧ (runRequest 2 reqState0).1 = List.replicate 2 reqState0.nextConn
    ∧ (runRequest 2 reqState0).2.closedLog
        = reqState0.closedLog ++ (if 2 = 0 then [] else [reqState0.nextConn])
    ∧ (runRequest 2 reqState0).2.g = none :=
  request_connection_lifecycle 2 reqState0 rfl

/-- C9: the service is append-only: GET /history never modifies the store,
and POST /generate only ever appends, so every record present before a
request is still present, unchanged and in place, after it. -/
theorem store_append_only (args : List (String × String))
    (oracle : String → Except String String) (body : Except String Json)
    (now : Nat) (db : DBState) :
    (history args db).db = db
    ∧ (∃ ext, (generate oracle body now db).db.rows = db.rows ++ ext)
    ∧ ∀ r, r ∈ db.rows → r ∈ (generate oracle body now db).db.rows := by
  refine ⟨?_, (generate_db_extends oracle body now db).1, ?_⟩
  · unfold history
    cases parseParam args "limit" 5 <;> cases parseParam args "offset" 0 <;> rfl
  · intro r hr
    obtain ⟨ext, hext⟩ := (generate_db_extends oracle body now db).1
    rw [hext]
    exact List.mem_append_left _ hr
